import Mathlib

/-!
Verification of the calibration-and-control-mapping engine of
my-controller/test_mediapipe.py.

The engine is shallowly embedded: the module-level globals of the Python
script become fields of an explicit EngineState record, one iteration of
the main loop (one control tick) becomes a pure step function from a
state and a tick input to a new state plus the list of sink writes the
iteration performs, and Python floats become rationals.  The two
transcendental ingredients of the torso-incline computation (atan2 and
the radian-to-degree factor 180 / pi) cannot be represented exactly in
the rationals; they are abstracted as parameters (an AngleOps record)
and every theorem below is quantified over all possible values of those
parameters, so no result depends on how they are instantiated.  None of
the claims under scrutiny concerns the numeric value of the lean axis.
-/

namespace CamController

/-- Gesture vocabulary, from the category names the script compares
against: the strings Open_Palm and Closed_Fist; every other category
name is collapsed into one constructor since the script only ever tests
equality with those two strings. -/
inductive Gesture where
  | open_palm
  | closed_fist
  | other
deriving DecidableEq, Repr

/-- Per-hand track state (class HandState, lines 31-33). -/
inductive HandState where
  | TRACKING
  | RELEASED
deriving DecidableEq, Repr

/-- Calibration state machine labels (class CalibrationStatus, lines 46-50). -/
inductive CalibrationStatus where
  | NOT_CALIBRATED
  | ARMING
  | READY_TO_SET
  | CALIBRATED
deriving DecidableEq, Repr

/-- A 3D world-landmark position (the x, y, z of a MediaPipe landmark). -/
structure V3 where
  x : ℚ
  y : ℚ
  z : ℚ
deriving DecidableEq, Repr

/-- A 2D normalized-image landmark position. -/
structure V2 where
  x : ℚ
  y : ℚ
deriving DecidableEq, Repr

/-- The slice of a pose result the engine reads: world landmarks 0
(head), 15 (left hand), 16 (right hand), 11/12 (shoulders), 23/24
(hips), and image landmarks 0, 15, 16. -/
structure PoseSample where
  head3d : V3
  lhand3d : V3
  rhand3d : V3
  lshoulder3d : V3
  rshoulder3d : V3
  lhip3d : V3
  rhip3d : V3
  head2d : V2
  lhand2d : V2
  rhand2d : V2
deriving DecidableEq, Repr

/-- The averaged reference captured by average_initial_state
(lines 103-148): the avg_state dictionary with its named keys. -/
structure Baseline where
  left_hand_pos : V3
  right_hand_pos : V3
  head_pos_3d : V3
  left_hand_pos_2d : V2
  right_hand_pos_2d : V2
  head_pos_2d : V2
  torso_angle : ℚ
  left_hand_head_y_offset : ℚ
  right_hand_head_y_offset : ℚ
deriving DecidableEq, Repr

/-- Abstraction of the transcendental pieces of the source.
torsoAngle stands for calculate_torso_angle (lines 73-101, an atan2 of
midpoint differences shifted by pi/2 and renormalized) and rad2deg for
np.rad2deg (multiplication by 180 / pi).  Both are real-valued in the
source and are kept abstract, as parameters; every theorem holds for
every choice of AngleOps. -/
structure AngleOps where
  torsoAngle : PoseSample → ℚ
  rad2deg : ℚ → ℚ

/-- One control tick of input: the wall-clock time of the loop
iteration (time.time()), the latest pose result if one with world
landmarks is available, and the parsed per-hand gesture labels
(current_gestures.get for Left and Right; none when the gesture result
is absent or the hand was not seen). -/
structure Tick where
  time : ℚ
  pose : Option PoseSample
  gleft : Option Gesture
  gright : Option Gesture
deriving DecidableEq, Repr

/-- VJOY_MAX_RANGE = 32768 (line 23). -/
def VJOY_MAX_RANGE : ℤ := 32768

/-- VJOY_CENTER = VJOY_MAX_RANGE // 2 (line 24). -/
def VJOY_CENTER : ℤ := VJOY_MAX_RANGE / 2

/-- GESTURE_STREAK_REQUIRED = 3 (line 39). -/
def GESTURE_STREAK_REQUIRED : ℕ := 3

/-- MAX_TRAVEL_METERS = 0.4 (line 363). -/
def MAX_TRAVEL_METERS : ℚ := 2 / 5

/-- MAX_LEAN_DEGREES = 25 (line 364). -/
def MAX_LEAN_DEGREES : ℚ := 25

/-- Python int() applied to a float: truncation toward zero. -/
def pytrunc (q : ℚ) : ℤ := if 0 ≤ q then ⌊q⌋ else ⌈q⌉

/-- map_to_vjoy_axis (lines 26-29): vjoy_value =
int(VJOY_CENTER + value * (VJOY_CENTER - 1)), then
max(1, min(VJOY_MAX_RANGE, vjoy_value)). -/
def map_to_vjoy_axis (value : ℚ) : ℤ :=
  max 1 (min VJOY_MAX_RANGE (pytrunc ((VJOY_CENTER : ℚ) + value * ((VJOY_CENTER : ℚ) - 1))))

/-- Python round() applied to a float: round half to even.  This is
used only to state what the spec sentence about the device mapping
would compute, for comparison with map_to_vjoy_axis. -/
def pyround (q : ℚ) : ℤ :=
  if q - ⌊q⌋ < 1 / 2 then ⌊q⌋
  else if 1 / 2 < q - ⌊q⌋ then ⌊q⌋ + 1
  else if ⌊q⌋ % 2 = 0 then ⌊q⌋ else ⌊q⌋ + 1

/-- Modelled from the spec: the device mapping as the spec words it,
value to round(C + value * (C - 1)) clamped into [1, R].  The source
function is map_to_vjoy_axis; this definition exists only to compare
the two. -/
def spec_round_map (value : ℚ) : ℤ :=
  max 1 (min VJOY_MAX_RANGE (pyround ((VJOY_CENTER : ℚ) + value * ((VJOY_CENTER : ℚ) - 1))))

/-- np.clip(x, lo, hi). -/
def clip (x lo hi : ℚ) : ℚ := max lo (min hi x)

/-- Vertical hand travel relative to head (lines 351-360): zero for a
released hand, otherwise the negation of (current hand-to-head
y-offset minus the stored reference offset). -/
def vertical_travel (st : HandState) (hand_y head_y ref_offset : ℚ) : ℚ :=
  if st = HandState.TRACKING then -((hand_y - head_y) - ref_offset) else 0

/-- Pull amount (lines 367-368): max(0, -vertical_travel), only
downward movement counts. -/
def pull_amount (travel : ℚ) : ℚ := max 0 (-travel)

/-- Normalized brake for the left hand (lines 371 and 376): clip the
pull into [0, 1] of MAX_TRAVEL_METERS, then rescale to [-1, 1]. -/
def left_brake_norm (travel : ℚ) : ℚ :=
  clip (pull_amount travel / MAX_TRAVEL_METERS) 0 1 * 2 - 1

/-- Normalized brake for the right hand (lines 372 and 377): as for the
left hand but with inverted sign. -/
def right_brake_norm (travel : ℚ) : ℚ :=
  -(clip (pull_amount travel / MAX_TRAVEL_METERS) 0 1 * 2 - 1)

/-- The per-hand debounce bookkeeping: the triple of globals
(hand_status, last_seen_gesture, gesture_streak) for one hand. -/
structure DebSt where
  status : HandState
  last_seen : Option Gesture
  streak : ℕ
deriving DecidableEq, Repr

/-- One debounce update for one hand (lines 294-309 for the left hand,
311-326 for the right): same observed label as last seen increments
the streak, a different one records it and resets the streak to 1;
when the streak reaches GESTURE_STREAK_REQUIRED, Open_Palm releases a
tracking hand and Closed_Fist re-tracks a released one, each resetting
the streak to 0.  The boolean result reports a RELEASED-to-TRACKING
transition, which in the source refreshes the stored hand-to-head
offset. -/
def hand_debounce (d : DebSt) (cur : Option Gesture) : DebSt × Bool :=
  let d1 : DebSt :=
    if cur = d.last_seen then { d with streak := d.streak + 1 }
    else { d with last_seen := cur, streak := 1 }
  if GESTURE_STREAK_REQUIRED ≤ d1.streak then
    if d1.status = HandState.TRACKING ∧ d1.last_seen = some Gesture.open_palm then
      ({ d1 with status := HandState.RELEASED, streak := 0 }, false)
    else if d1.status = HandState.RELEASED ∧ d1.last_seen = some Gesture.closed_fist then
      ({ d1 with status := HandState.TRACKING, streak := 0 }, true)
    else (d1, false)
  else (d1, false)

/-- average_initial_state (lines 103-148): none on an empty buffer,
otherwise the component-wise mean of the buffered samples, the mean of
their torso angles, and the two hand-to-head y-offsets derived from
the averaged positions. -/
def average_initial_state (ops : AngleOps) (buffer : List PoseSample) : Option Baseline :=
  match buffer with
  | [] => none
  | b :: bs =>
    let l : List PoseSample := b :: bs
    let n : ℚ := l.length
    let avg3 : (PoseSample → V3) → V3 := fun f =>
      ⟨(l.map fun p => (f p).x).sum / n,
       (l.map fun p => (f p).y).sum / n,
       (l.map fun p => (f p).z).sum / n⟩
    let avg2 : (PoseSample → V2) → V2 := fun f =>
      ⟨(l.map fun p => (f p).x).sum / n,
       (l.map fun p => (f p).y).sum / n⟩
    let l3 := avg3 PoseSample.lhand3d
    let r3 := avg3 PoseSample.rhand3d
    let h3 := avg3 PoseSample.head3d
    some
      { left_hand_pos := l3
        right_hand_pos := r3
        head_pos_3d := h3
        left_hand_pos_2d := avg2 PoseSample.lhand2d
        right_hand_pos_2d := avg2 PoseSample.rhand2d
        head_pos_2d := avg2 PoseSample.head2d
        torso_angle := (l.map ops.torsoAngle).sum / n
        left_hand_head_y_offset := l3.y - h3.y
        right_hand_head_y_offset := r3.y - h3.y }

/-- The engine state: the module-level globals mutated by the main
loop (lines 35-58), with the pose buffer as an explicit list, newest
sample first. -/
structure EngineState where
  calibration_status : CalibrationStatus
  arming_start_time : Option ℚ
  pose_data_buffer : List PoseSample
  is_calibrated : Bool
  initial_state : Option Baseline
  left_hand_status : HandState
  right_hand_status : HandState
  left_gesture_streak : ℕ
  right_gesture_streak : ℕ
  left_last_seen_gesture : Option Gesture
  right_last_seen_gesture : Option Gesture
deriving DecidableEq, Repr

/-- The initial values of the globals: not calibrated, no arming timer,
empty buffer, no baseline, both hands tracking with streak 0. -/
def initial_engine_state : EngineState :=
  { calibration_status := CalibrationStatus.NOT_CALIBRATED
    arming_start_time := none
    pose_data_buffer := []
    is_calibrated := false
    initial_state := none
    left_hand_status := HandState.TRACKING
    right_hand_status := HandState.TRACKING
    left_gesture_streak := 0
    right_gesture_streak := 0
    left_last_seen_gesture := none
    right_last_seen_gesture := none }

/-- Both parsed gestures equal Open_Palm (the arming condition of
lines 256, 261, 280). -/
def both_open (t : Tick) : Bool :=
  t.gleft == some Gesture.open_palm && t.gright == some Gesture.open_palm

/-- Both parsed gestures equal Closed_Fist (the set condition of
line 269). -/
def both_fist (t : Tick) : Bool :=
  t.gleft == some Gesture.closed_fist && t.gright == some Gesture.closed_fist

/-- The calibration state machine of lines 255-283, run on a tick that
has a pose sample, after that sample has been appended to the buffer.
Note the READY_TO_SET failure branch overwrites initial_state with the
none returned by the averaging, exactly as the assignment on line 270
does. -/
def calibration_step (ops : AngleOps) (s : EngineState) (t : Tick) : EngineState :=
  match s.calibration_status with
  | CalibrationStatus.NOT_CALIBRATED =>
      if both_open t then
        { s with calibration_status := CalibrationStatus.ARMING,
                 arming_start_time := some t.time }
      else s
  | CalibrationStatus.ARMING =>
      if !both_open t then
        { s with
            calibration_status :=
              if s.is_calibrated then CalibrationStatus.CALIBRATED
              else CalibrationStatus.NOT_CALIBRATED,
            arming_start_time := none }
      else if 1 / 2 ≤ t.time - (s.arming_start_time.getD 0) then
        { s with calibration_status := CalibrationStatus.READY_TO_SET }
      else s
  | CalibrationStatus.READY_TO_SET =>
      if both_fist t then
        match average_initial_state ops s.pose_data_buffer with
        | some st =>
            { s with initial_state := some st,
                     is_calibrated := true,
                     left_hand_status := HandState.TRACKING,
                     right_hand_status := HandState.TRACKING,
                     calibration_status := CalibrationStatus.CALIBRATED }
        | none =>
            { s with initial_state := none,
                     calibration_status := CalibrationStatus.NOT_CALIBRATED }
      else s
  | CalibrationStatus.CALIBRATED =>
      if both_open t then
        { s with calibration_status := CalibrationStatus.ARMING,
                 arming_start_time := some t.time }
      else s

/-- A single write to the vJoy sink: either set_axis with an axis id
and an integer value, or set_button with a button number and a pressed
flag.  The script only ever performs axis writes; the button
constructor exists so that statements about button writes can be made. -/
inductive AxisId where
  | X
  | Y
  | Z
  | RX
deriving DecidableEq, Repr

inductive Write where
  | axis : AxisId → ℤ → Write
  | button : ℕ → Bool → Write
deriving DecidableEq, Repr

/-- The calibrated part of a tick (lines 289-392): the per-hand
debounce with its offset refresh, the travel and pull computation, and
the four axis writes X, Y, RX, Z.  Run after the calibration state
machine; does nothing unless is_calibrated is set.  The none branch of
initial_state is unreachable from the initial state (is_calibrated is
only ever set together with a baseline); in the source it would raise
a KeyError, here it performs no writes. -/
def hand_phase (ops : AngleOps) (s2 : EngineState) (sample : PoseSample) (t : Tick) :
    EngineState × List Write :=
  if s2.is_calibrated then
    match s2.initial_state with
    | none => (s2, [])
    | some base0 =>
      let ldeb := hand_debounce
        ⟨s2.left_hand_status, s2.left_last_seen_gesture, s2.left_gesture_streak⟩ t.gleft
      let base1 :=
        if ldeb.2 then
          { base0 with left_hand_head_y_offset := sample.lhand3d.y - sample.head3d.y }
        else base0
      let rdeb := hand_debounce
        ⟨s2.right_hand_status, s2.right_last_seen_gesture, s2.right_gesture_streak⟩ t.gright
      let base2 :=
        if rdeb.2 then
          { base1 with right_hand_head_y_offset := sample.rhand3d.y - sample.head3d.y }
        else base1
      let ltravel := vertical_travel ldeb.1.status sample.lhand3d.y sample.head3d.y
        base2.left_hand_head_y_offset
      let rtravel := vertical_travel rdeb.1.status sample.rhand3d.y sample.head3d.y
        base2.right_hand_head_y_offset
      let rel_incline_deg := ops.rad2deg (ops.torsoAngle sample - base2.torso_angle)
      let norm_lean := clip (rel_incline_deg / MAX_LEAN_DEGREES) (-1) 1
      ({ s2 with
          initial_state := some base2,
          left_hand_status := ldeb.1.status,
          left_last_seen_gesture := ldeb.1.last_seen,
          left_gesture_streak := ldeb.1.streak,
          right_hand_status := rdeb.1.status,
          right_last_seen_gesture := rdeb.1.last_seen,
          right_gesture_streak := rdeb.1.streak },
       [Write.axis AxisId.X (map_to_vjoy_axis (left_brake_norm ltravel)),
        Write.axis AxisId.Y (map_to_vjoy_axis (right_brake_norm rtravel)),
        Write.axis AxisId.RX (map_to_vjoy_axis norm_lean),
        Write.axis AxisId.Z VJOY_CENTER])
  else (s2, [])

/-- One control tick (the body of the while loop, lines 229-456): with
no usable pose result nothing happens and nothing is written; with one,
the sample is appended to the 5-deep buffer, the calibration machine
runs, and then the calibrated hand logic and axis writes run. -/
def step (ops : AngleOps) (s : EngineState) (t : Tick) : EngineState × List Write :=
  match t.pose with
  | none => (s, [])
  | some sample =>
      hand_phase ops
        (calibration_step ops
          { s with pose_data_buffer := (sample :: s.pose_data_buffer).take 5 } t)
        sample t

/-- Run the loop over a list of ticks, returning the final state. -/
def run (ops : AngleOps) (s : EngineState) (ticks : List Tick) : EngineState :=
  ticks.foldl (fun s t => (step ops s t).1) s

/-- Run the loop over a list of ticks, returning the per-tick write
lists in order. -/
def run_outputs (ops : AngleOps) : EngineState → List Tick → List (List Write)
  | _, [] => []
  | s, t :: ts => (step ops s t).2 :: run_outputs ops (step ops s t).1 ts

/-- The final writes performed at shutdown (lines 462-466): the four
used axes X, Y, Z, RX each set to VJOY_CENTER, in that order. -/
def shutdown_writes : List Write :=
  [Write.axis AxisId.X VJOY_CENTER,
   Write.axis AxisId.Y VJOY_CENTER,
   Write.axis AxisId.Z VJOY_CENTER,
   Write.axis AxisId.RX VJOY_CENTER]

/-- An axis write carrying the center value. -/
def is_center_axis_write : Write → Bool
  | Write.axis _ v => v == VJOY_CENTER
  | Write.button _ _ => false

/-- A button write of any kind. -/
def is_button_write : Write → Bool
  | Write.axis _ _ => false
  | Write.button _ _ => true

/-- The button numbers the specification allows (up to four discrete
buttons). -/
def button_ids : List ℕ := [1, 2, 3, 4]

/-- A write list that sets every one of the (up to four) buttons to
false, as the claim about shutdown demands. -/
def sets_every_button_false (ws : List Write) : Bool :=
  button_ids.all fun b => ws.any fun w => decide (w = Write.button b false)

/-- A write list that contains an axis write for each of the four used
axes (the condition of writing all axes on a tick). -/
def writes_all_axes (ws : List Write) : Bool :=
  [AxisId.X, AxisId.Y, AxisId.RX, AxisId.Z].all fun a =>
    ws.any fun w =>
      match w with
      | Write.axis a2 _ => a2 == a
      | Write.button _ _ => false

/-! ## General facts about the step function -/

theorem run_nil (ops : AngleOps) (s : EngineState) : run ops s [] = s := rfl

theorem run_cons (ops : AngleOps) (s : EngineState) (t : Tick) (ts : List Tick) :
    run ops s (t :: ts) = run ops (step ops s t).1 ts := rfl

theorem run_append_one (ops : AngleOps) (s : EngineState) (ts : List Tick) (t : Tick) :
    run ops s (ts ++ [t]) = (step ops (run ops s ts) t).1 := by
  simp [run, List.foldl_append]

/-- Averaging a nonempty buffer always succeeds. -/
theorem average_initial_state_isSome (ops : AngleOps) (l : List PoseSample) (h : l ≠ []) :
    (average_initial_state ops l).isSome = true := by
  cases l with
  | nil => exact absurd rfl h
  | cons b bs => simp [average_initial_state]

/-- The hand phase of a tick never touches the calibration machinery:
status, flag, arming timer, buffer, and the existence of a baseline
all pass through unchanged. -/
theorem hand_phase_preserves (ops : AngleOps) (s2 : EngineState) (sample : PoseSample)
    (t : Tick) :
    (hand_phase ops s2 sample t).1.calibration_status = s2.calibration_status ∧
    (hand_phase ops s2 sample t).1.is_calibrated = s2.is_calibrated ∧
    (hand_phase ops s2 sample t).1.arming_start_time = s2.arming_start_time ∧
    (hand_phase ops s2 sample t).1.initial_state.isSome = s2.initial_state.isSome ∧
    (hand_phase ops s2 sample t).1.pose_data_buffer = s2.pose_data_buffer := by
  unfold hand_phase
  split
  · split <;> simp_all
  · simp

/-- Whatever the axis values, the four writes of the calibrated hand
phase cover all four axes. -/
theorem writes_all_axes_quad (v1 v2 v3 v4 : ℤ) :
    writes_all_axes
      [Write.axis AxisId.X v1, Write.axis AxisId.Y v2,
       Write.axis AxisId.RX v3, Write.axis AxisId.Z v4] = true := rfl

/-- A calibrated state with a baseline emits the four axis writes. -/
theorem hand_phase_writes_calibrated (ops : AngleOps) (s2 : EngineState)
    (sample : PoseSample) (t : Tick) (hcal : s2.is_calibrated = true)
    (b : Baseline) (hb : s2.initial_state = some b) :
    writes_all_axes (hand_phase ops s2 sample t).2 = true := by
  simp only [hand_phase, hcal, hb, if_true]
  exact writes_all_axes_quad _ _ _ _

/-- An uncalibrated state emits no writes. -/
theorem hand_phase_writes_uncalibrated (ops : AngleOps) (s2 : EngineState)
    (sample : PoseSample) (t : Tick) (hcal : s2.is_calibrated = false) :
    (hand_phase ops s2 sample t).2 = [] := by
  simp [hand_phase, hcal]

/-- The reachable-state invariant: a baseline exists exactly when the
is_calibrated flag is set, a CALIBRATED status implies the flag, and an
ARMING status implies a live arming timer. -/
def StateInv (s : EngineState) : Prop :=
  s.initial_state.isSome = s.is_calibrated ∧
  (s.calibration_status = CalibrationStatus.CALIBRATED → s.is_calibrated = true) ∧
  (s.calibration_status = CalibrationStatus.ARMING → s.arming_start_time.isSome = true)

theorem initial_state_inv : StateInv initial_engine_state := by
  refine ⟨rfl, ?_, ?_⟩ <;> intro h <;> simp [initial_engine_state] at h

theorem calibration_step_inv (ops : AngleOps) (s : EngineState) (t : Tick)
    (hbuf : s.pose_data_buffer ≠ []) (h : StateInv s) :
    StateInv (calibration_step ops s t) := by
  obtain ⟨h1, h2, h3⟩ := h
  unfold calibration_step
  split
  · -- NOT_CALIBRATED
    split
    · exact ⟨h1, fun hc => by simp at hc, fun _ => rfl⟩
    · exact ⟨h1, h2, h3⟩
  · -- ARMING
    split
    · -- the qualifying gesture broke: revert
      refine ⟨h1, ?_, ?_⟩
      · intro hc
        by_cases hic : s.is_calibrated
        · exact hic
        · simp [hic] at hc
      · intro hc
        by_cases hic : s.is_calibrated <;> simp [hic] at hc
    · split
      · exact ⟨h1, fun hc => by simp at hc, fun hc => by simp at hc⟩
      · exact ⟨h1, h2, h3⟩
  · -- READY_TO_SET
    split
    · split
      · exact ⟨by simp, fun _ => rfl, fun hc => by simp at hc⟩
      · next heq =>
          have hs := average_initial_state_isSome ops s.pose_data_buffer hbuf
          rw [heq] at hs
          simp at hs
    · exact ⟨h1, h2, h3⟩
  · -- CALIBRATED
    split
    · exact ⟨h1, fun hc => by simp at hc, fun _ => rfl⟩
    · exact ⟨h1, h2, h3⟩

theorem step_inv (ops : AngleOps) (s : EngineState) (t : Tick) (h : StateInv s) :
    StateInv (step ops s t).1 := by
  unfold step
  cases hp : t.pose with
  | none => exact h
  | some sample =>
      set s1 : EngineState :=
        { s with pose_data_buffer := (sample :: s.pose_data_buffer).take 5 } with hs1
      have hbuf : s1.pose_data_buffer ≠ [] := by
        simp [hs1, List.take_succ_cons]
      have hinv1 : StateInv s1 := h
      have hinv2 := calibration_step_inv ops s1 t hbuf hinv1
      obtain ⟨g1, g2, g3, g4, g5⟩ :=
        hand_phase_preserves ops (calibration_step ops s1 t) sample t
      exact ⟨by rw [g4, g2]; exact hinv2.1,
             by rw [g1, g2]; exact hinv2.2.1,
             by rw [g1, g3]; exact hinv2.2.2⟩

theorem run_inv (ops : AngleOps) (ticks : List Tick) :
    StateInv (run ops initial_engine_state ticks) := by
  suffices hgen : ∀ (s : EngineState), StateInv s → StateInv (run ops s ticks) from
    hgen initial_engine_state initial_state_inv
  induction ticks with
  | nil => exact fun s h => h
  | cons t ts ih =>
      intro s h
      rw [run_cons]
      exact ih _ (step_inv ops s t h)

/-- A concrete pose sample with every landmark at the origin, used by
the concrete traces below. -/
def p0 : PoseSample :=
  ⟨⟨0, 0, 0⟩, ⟨0, 0, 0⟩, ⟨0, 0, 0⟩, ⟨0, 0, 0⟩, ⟨0, 0, 0⟩, ⟨0, 0, 0⟩, ⟨0, 0, 0⟩,
   ⟨0, 0⟩, ⟨0, 0⟩, ⟨0, 0⟩⟩

/-- A concrete instantiation of the transcendental parameters, used
only to build concrete traces: torso angle constantly 0 and the
radian-to-degree conversion as the identity. -/
def ops0 : AngleOps := ⟨fun _ => 0, fun q => q⟩

/-- Tick feeding two open palms at time 0. -/
def tick_a : Tick := ⟨0, some p0, some Gesture.open_palm, some Gesture.open_palm⟩

/-- Tick feeding two open palms at time 1 (a full second later). -/
def tick_b : Tick := ⟨1, some p0, some Gesture.open_palm, some Gesture.open_palm⟩

/-- Tick feeding two closed fists at time 2. -/
def tick_c : Tick := ⟨2, some p0, some Gesture.closed_fist, some Gesture.closed_fist⟩

/-- Tick feeding two open palms at time 3. -/
def tick_d : Tick := ⟨3, some p0, some Gesture.open_palm, some Gesture.open_palm⟩

/-- A trace that calibrates: two open-palm ticks a full second apart
(entering and completing the arming hold), then a closed-fist tick
that installs the baseline. -/
def cal_ticks : List Tick := [tick_a, tick_b, tick_c]

/-- The calibrating trace followed by one more open-palm tick, which
re-enters ARMING while the installed baseline stays in place. -/
def rearm_ticks : List Tick := cal_ticks ++ [tick_d]

/-- The all-zero baseline installed by averaging copies of p0. -/
def b0 : Baseline :=
  ⟨⟨0, 0, 0⟩, ⟨0, 0, 0⟩, ⟨0, 0, 0⟩, ⟨0, 0⟩, ⟨0, 0⟩, ⟨0, 0⟩, 0, 0, 0⟩

/-- The state after tick_a: arming just entered at time 0. -/
def st_a : EngineState :=
  { calibration_status := CalibrationStatus.ARMING
    arming_start_time := some 0
    pose_data_buffer := [p0]
    is_calibrated := false
    initial_state := none
    left_hand_status := HandState.TRACKING
    right_hand_status := HandState.TRACKING
    left_gesture_streak := 0
    right_gesture_streak := 0
    left_last_seen_gesture := none
    right_last_seen_gesture := none }

/-- The state after tick_b: the half-second hold elapsed. -/
def st_b : EngineState :=
  { st_a with calibration_status := CalibrationStatus.READY_TO_SET
              pose_data_buffer := [p0, p0] }

/-- The state after tick_c: calibrated with the all-zero baseline; the
closed fists also passed through the debouncer as first observations. -/
def st_c : EngineState :=
  { calibration_status := CalibrationStatus.CALIBRATED
    arming_start_time := some 0
    pose_data_buffer := [p0, p0, p0]
    is_calibrated := true
    initial_state := some b0
    left_hand_status := HandState.TRACKING
    right_hand_status := HandState.TRACKING
    left_gesture_streak := 1
    right_gesture_streak := 1
    left_last_seen_gesture := some Gesture.closed_fist
    right_last_seen_gesture := some Gesture.closed_fist }

/-- The state after tick_d: re-arming at time 3 with the baseline kept. -/
def st_d : EngineState :=
  { st_c with calibration_status := CalibrationStatus.ARMING
              arming_start_time := some 3
              pose_data_buffer := [p0, p0, p0, p0]
              left_gesture_streak := 1
              right_gesture_streak := 1
              left_last_seen_gesture := some Gesture.open_palm
              right_last_seen_gesture := some Gesture.open_palm }

theorem step_tick_a : (step ops0 initial_engine_state tick_a).1 = st_a := by
  norm_num [step, tick_a, hand_phase, calibration_step, both_open,
    initial_engine_state, st_a]

theorem step_tick_b : (step ops0 st_a tick_b).1 = st_b := by
  norm_num [step, tick_b, hand_phase, calibration_step, both_open, st_a, st_b]

theorem hand_debounce_fresh_fist :
    hand_debounce ⟨HandState.TRACKING, none, 0⟩ (some Gesture.closed_fist) =
      (⟨HandState.TRACKING, some Gesture.closed_fist, 1⟩, false) := by
  decide

theorem hand_debounce_fist_then_palm :
    hand_debounce ⟨HandState.TRACKING, some Gesture.closed_fist, 1⟩
      (some Gesture.open_palm) =
      (⟨HandState.TRACKING, some Gesture.open_palm, 1⟩, false) := by
  decide

set_option maxHeartbeats 1000000 in
theorem step_tick_c : (step ops0 st_b tick_c).1 = st_c := by
  norm_num [step, tick_c, hand_phase, calibration_step, both_open, both_fist,
    average_initial_state, hand_debounce_fresh_fist, ops0, p0,
    st_a, st_b, st_c, b0]

set_option maxHeartbeats 1000000 in
theorem step_tick_d : (step ops0 st_c tick_d).1 = st_d := by
  norm_num [step, tick_d, hand_phase, calibration_step, both_open, both_fist,
    hand_debounce_fist_then_palm, vertical_travel, st_c, st_d, b0, p0]

theorem run_cal_ticks : run ops0 initial_engine_state cal_ticks = st_c := by
  rw [cal_ticks, run_cons, step_tick_a, run_cons, step_tick_b, run_cons, step_tick_c]
  rfl

theorem run_rearm_ticks : run ops0 initial_engine_state rearm_ticks = st_d := by
  rw [rearm_ticks, run_append_one, run_cal_ticks, step_tick_d]

/-! ## The debounce sub-machine viewed on its own observation stream -/

/-- The state part of one debounce update. -/
def deb_step (d : DebSt) (o : Option Gesture) : DebSt := (hand_debounce d o).1

/-- The initial per-hand debounce state of the engine: tracking, no
label seen, streak 0. -/
def deb_init : DebSt := ⟨HandState.TRACKING, none, 0⟩

/-- Run the debouncer over a list of observations. -/
def deb_run (d : DebSt) (obs : List (Option Gesture)) : DebSt := obs.foldl deb_step d

/-- The debounce state after the first k observations of a stream. -/
def deb_at (obs : List (Option Gesture)) (k : ℕ) : DebSt := deb_run deb_init (obs.take k)

theorem deb_run_append_one (d : DebSt) (xs : List (Option Gesture)) (x : Option Gesture) :
    deb_run d (xs ++ [x]) = deb_step (deb_run d xs) x := by
  simp [deb_run, List.foldl_append]

theorem deb_at_succ (obs : List (Option Gesture)) (k : ℕ) (o : Option Gesture)
    (h : obs[k]? = some o) :
    deb_at obs (k + 1) = deb_step (deb_at obs k) o := by
  unfold deb_at
  rw [List.take_succ, h]
  exact deb_run_append_one _ _ _

theorem deb_at_stable (obs : List (Option Gesture)) (k : ℕ) (h : obs.length ≤ k) :
    deb_at obs (k + 1) = deb_at obs k := by
  unfold deb_at
  rw [List.take_of_length_le h, List.take_of_length_le (le_trans h (Nat.le_succ k))]

/-- The updated last-seen label is always the label just observed. -/
theorem deb_step_last (d : DebSt) (o : Option Gesture) : (deb_step d o).last_seen = o := by
  simp only [deb_step, hand_debounce]
  by_cases heq : o = d.last_seen
  · subst heq
    split_ifs <;> rfl
  · split_ifs <;> rfl

/-- The streak after an update is either 0 (a transition fired), the
old streak plus one (the observed label repeated the last-seen one),
or exactly 1 (a different label was observed). -/
theorem deb_step_streak (d : DebSt) (o : Option Gesture) :
    (deb_step d o).streak = 0 ∨
    (o = d.last_seen ∧ (deb_step d o).streak = d.streak + 1) ∨
    (o ≠ d.last_seen ∧ (deb_step d o).streak = 1) := by
  simp only [deb_step, hand_debounce]
  by_cases heq : o = d.last_seen
  · subst heq
    split_ifs <;> simp_all
  · split_ifs <;> simp_all

/-- A debounce update only changes the hand state when the observed
label repeats the last-seen one and the incoming streak is already at
least 2 (so the updated streak reaches the threshold 3). -/
theorem deb_step_status_change (d : DebSt) (o : Option Gesture)
    (h : (deb_step d o).status ≠ d.status) :
    o = d.last_seen ∧ 2 ≤ d.streak := by
  simp only [deb_step, hand_debounce] at h
  by_cases heq : o = d.last_seen
  · refine ⟨heq, ?_⟩
    subst heq
    split_ifs at h <;>
      solve
        | exact absurd rfl h
        | (simp_all only [GESTURE_STREAK_REQUIRED]; omega)
  · exfalso
    split_ifs at h <;>
      solve
        | exact h rfl
        | (simp_all only [GESTURE_STREAK_REQUIRED]; omega)

/-- The streak never exceeds the number of observations consumed, and
the last streak-many observations all equal the last-seen label. -/
theorem deb_streak_window (obs : List (Option Gesture)) (k : ℕ) (hk : k ≤ obs.length) :
    (deb_at obs k).streak ≤ k ∧
    ∀ m, k - (deb_at obs k).streak ≤ m → m < k →
      obs[m]? = some ((deb_at obs k).last_seen) := by
  induction k with
  | zero => exact ⟨Nat.le_refl 0, fun m _ hm => absurd hm (Nat.not_lt_zero m)⟩
  | succ k ih =>
      have hk' : k < obs.length := hk
      obtain ⟨ih1, ih2⟩ := ih (le_of_lt hk')
      have hobs : obs[k]? = some obs[k] := List.getElem?_eq_getElem hk'
      rw [deb_at_succ obs k obs[k] hobs]
      have hlast : (deb_step (deb_at obs k) obs[k]).last_seen = obs[k] :=
        deb_step_last _ _
      rcases deb_step_streak (deb_at obs k) obs[k] with h0 | ⟨heq, hstreak⟩ | ⟨_, hstreak⟩
      · rw [h0]
        exact ⟨Nat.zero_le _, fun m h1 h2 => absurd h2 (by omega)⟩
      · rw [hstreak]
        refine ⟨by omega, fun m h1 h2 => ?_⟩
        rw [hlast]
        rcases Nat.lt_succ_iff_lt_or_eq.mp h2 with hmk | hmk
        · rw [heq]
          exact ih2 m (by omega) hmk
        · subst hmk
          exact hobs
      · rw [hstreak]
        refine ⟨by omega, fun m h1 h2 => ?_⟩
        have hmk : m = k := by omega
        subst hmk
        rw [hlast]
        exact hobs

/-! ## C6: three identical observations gate every hand transition -/

/-- C6.  For each hand independently, a Tracking/Released transition
of the gesture debouncer never fires on fewer than 3 consecutive
identical observations: whenever the k-th observation changes the hand
state, k is at least 2 and observations k-2, k-1 and k are identical;
and a stream whose adjacent labels always differ (alternating labels,
streak forever resetting to 1) never moves the hand state at all. -/
theorem C6_transition_needs_three_identical (obs : List (Option Gesture)) :
    (∀ k, (deb_at obs (k + 1)).status ≠ (deb_at obs k).status →
      2 ≤ k ∧ ∃ g, obs[k - 2]? = some g ∧ obs[k - 1]? = some g ∧ obs[k]? = some g) ∧
    ((∀ i g g2, obs[i]? = some g → obs[i + 1]? = some g2 → g ≠ g2) →
      ∀ m, (deb_at obs m).status = HandState.TRACKING) := by
  constructor
  · intro k hne
    by_cases hk : k < obs.length
    · have hobs : obs[k]? = some obs[k] := List.getElem?_eq_getElem hk
      rw [deb_at_succ obs k _ hobs] at hne
      obtain ⟨heq, hstreak⟩ := deb_step_status_change _ _ hne
      obtain ⟨hw1, hw2⟩ := deb_streak_window obs k (le_of_lt hk)
      have hk2 : 2 ≤ k := le_trans hstreak hw1
      refine ⟨hk2, (deb_at obs k).last_seen, ?_, ?_, ?_⟩
      · exact hw2 (k - 2) (by omega) (by omega)
      · exact hw2 (k - 1) (by omega) (by omega)
      · rw [hobs, heq]
    · rw [deb_at_stable obs k (le_of_not_lt hk)] at hne
      exact absurd rfl hne
  · intro halt m
    induction m with
    | zero => rfl
    | succ m ih =>
        by_cases hm : m < obs.length
        · have hobs : obs[m]? = some obs[m] := List.getElem?_eq_getElem hm
          rw [deb_at_succ obs m _ hobs]
          by_contra hne
          have hchange :
              (deb_step (deb_at obs m) obs[m]).status ≠ (deb_at obs m).status := by
            rw [ih]
            exact hne
          obtain ⟨heq, hstreak⟩ := deb_step_status_change _ _ hchange
          obtain ⟨hw1, hw2⟩ := deb_streak_window obs m (le_of_lt hm)
          have hm2 : 2 ≤ m := le_trans hstreak hw1
          have h1 : obs[m - 1]? = some ((deb_at obs m).last_seen) :=
            hw2 (m - 1) (by omega) (by omega)
          have h2 : obs[m]? = some ((deb_at obs m).last_seen) := by rw [hobs, heq]
          have hidx : m - 1 + 1 = m := by omega
          exact halt (m - 1) _ _ h1 (by rw [hidx]; exact h2) rfl
        · rw [deb_at_stable obs m (le_of_not_lt hm)]
          exact ih

/-- Three identical open-palm observations in a row fire a release. -/
def obs_fire : List (Option Gesture) :=
  [some Gesture.open_palm, some Gesture.open_palm, some Gesture.open_palm]

/-- A strictly alternating observation stream. -/
def obs_alt : List (Option Gesture) :=
  [some Gesture.open_palm, some Gesture.closed_fist,
   some Gesture.open_palm, some Gesture.closed_fist]

/-- C6 witness: the firing branch applied where the third consecutive
open palm releases the hand, and the alternating branch applied to a
stream that keeps resetting the streak. -/
theorem C6_transition_needs_three_identical_witness :
    (2 ≤ 2 ∧ ∃ g, obs_fire[0]? = some g ∧ obs_fire[1]? = some g ∧ obs_fire[2]? = some g) ∧
    ∀ m, (deb_at obs_alt m).status = HandState.TRACKING :=
  ⟨(C6_transition_needs_three_identical obs_fire).1 2 (by decide),
   (C6_transition_needs_three_identical obs_alt).2 (by
      intro i g g2 hg hg2
      have hi : i < 3 := by
        have hlen := (List.getElem?_eq_some.mp hg2).1
        simp only [obs_alt, List.length_cons, List.length_nil] at hlen
        omega
      interval_cases i <;> simp_all [obs_alt] <;> subst hg <;> subst hg2 <;> decide)⟩

/-! ## C1: pull amount versus vertical travel -/

/-- C1 counterexample.  The claim states that the pull amount equals
max(0, vertical travel).  Take a tracking hand whose current
hand-to-head y-offset is 1 while its stored reference offset is 0 (the
hand moved in the positive-y, i.e. downward, image direction): the
vertical travel computed by the source is -1, the pull the source
computes is max(0, -(-1)) = 1, while the value the claim prescribes is
max(0, -1) = 0. -/
theorem C1_counterexample :
    pull_amount (vertical_travel HandState.TRACKING 1 0 0) = 1 ∧
    max 0 (vertical_travel HandState.TRACKING 1 0 0) = 0 ∧
    pull_amount (vertical_travel HandState.TRACKING 1 0 0) ≠
      max 0 (vertical_travel HandState.TRACKING 1 0 0) := by
  norm_num [pull_amount, vertical_travel]

/-- C1 (amended).  While Calibrated, on every tick with a pose sample,
the pull amount of each hand equals max(0, minus the vertical travel),
which for a tracking hand is max(0, current hand-to-head y-offset
minus the active reference y-offset); a released hand always yields
pull 0.  So motion that increases the hand-to-head y-offset beyond the
reference (downward motion in the y-grows-downward landmark frame,
where the travel value itself is negative) is the only motion that
produces nonzero pull. -/
theorem C1_pull_is_max_of_negated_travel (y h r : ℚ) :
    pull_amount (vertical_travel HandState.TRACKING y h r) = max 0 ((y - h) - r) ∧
    vertical_travel HandState.TRACKING y h r = -((y - h) - r) ∧
    pull_amount (vertical_travel HandState.RELEASED y h r) = 0 := by
  refine ⟨?_, by simp [vertical_travel], by simp [vertical_travel, pull_amount]⟩
  simp [vertical_travel, pull_amount]

/-! ## C2: missing gesture label and the debouncer -/

/-- C2 counterexample.  The claim states that a tick with no observed
gesture label leaves the streak count and the last-seen label of that
hand unchanged.  Start from a tracking hand with last-seen Open_Palm
and streak 2 and feed a missing label: the source records none as the
new last-seen label and resets the streak to 1, so both change. -/
theorem C2_counterexample :
    (hand_debounce ⟨HandState.TRACKING, some Gesture.open_palm, 2⟩ none).1 ≠
      ⟨HandState.TRACKING, some Gesture.open_palm, 2⟩ := by
  decide

/-- C2 (amended).  On a tick where no gesture label is observed for a
hand, the debouncer treats the absence as observing the distinct label
none: if the last-seen label is also none the streak increments,
otherwise the last-seen label becomes none and the streak resets to 1.
The confirmation check still runs but can never fire a transition,
because none is neither Open_Palm nor Closed_Fist, so the hand state
is unchanged and no offset refresh happens. -/
theorem C2_missing_gesture_behaviour (d : DebSt) :
    ((hand_debounce d none).1.status = d.status ∧ (hand_debounce d none).2 = false) ∧
    (d.last_seen = none →
      (hand_debounce d none).1 = ⟨d.status, none, d.streak + 1⟩) ∧
    (d.last_seen ≠ none → (hand_debounce d none).1 = ⟨d.status, none, 1⟩) := by
  obtain ⟨st, last, k⟩ := d
  cases last with
  | none =>
      refine ⟨⟨?_, ?_⟩, ?_, ?_⟩ <;>
        simp only [hand_debounce, GESTURE_STREAK_REQUIRED] <;>
        split <;> simp_all
  | some g =>
      refine ⟨⟨?_, ?_⟩, ?_, ?_⟩ <;>
        simp [hand_debounce, GESTURE_STREAK_REQUIRED]

/-- C2 witness: concrete instances of both branches of the amended
statement. -/
theorem C2_missing_gesture_behaviour_witness :
    (hand_debounce ⟨HandState.TRACKING, none, 0⟩ none).1 =
      ⟨HandState.TRACKING, none, 0 + 1⟩ ∧
    (hand_debounce ⟨HandState.TRACKING, some Gesture.open_palm, 2⟩ none).1 =
      ⟨HandState.TRACKING, none, 1⟩ :=
  ⟨(C2_missing_gesture_behaviour ⟨HandState.TRACKING, none, 0⟩).2.1 rfl,
   (C2_missing_gesture_behaviour ⟨HandState.TRACKING, some Gesture.open_palm, 2⟩).2.2
     (by simp)⟩

/-! ## C4: the device mapping function -/

/-- Upper bound of the device mapping on inputs bounded by 1: the
value 32768 = VJOY_MAX_RANGE is never produced there, the mapping tops
out at 32767. -/
theorem map_to_vjoy_axis_le_of_le_one (v : ℚ) (hv : v ≤ 1) :
    map_to_vjoy_axis v ≤ VJOY_MAX_RANGE - 1 := by
  have harg : (VJOY_CENTER : ℚ) + v * ((VJOY_CENTER : ℚ) - 1) ≤ 32767 := by
    have hm : v * ((16383 : ℚ)) ≤ 1 * 16383 :=
      mul_le_mul_of_nonneg_right hv (by norm_num)
    simp only [VJOY_CENTER, VJOY_MAX_RANGE]
    push_cast
    nlinarith
  have htr : pytrunc ((VJOY_CENTER : ℚ) + v * ((VJOY_CENTER : ℚ) - 1)) ≤ 32767 := by
    unfold pytrunc
    split
    · exact le_trans (Int.floor_le_floor harg) (by norm_num)
    · have h0 : ((VJOY_CENTER : ℚ) + v * ((VJOY_CENTER : ℚ) - 1)) ≤ 0 := by
        linarith [not_le.mp (by assumption)]
      calc ⌈(VJOY_CENTER : ℚ) + v * ((VJOY_CENTER : ℚ) - 1)⌉ ≤ (0 : ℤ) :=
            Int.ceil_le.mpr (by exact_mod_cast h0)
        _ ≤ 32767 := by norm_num
  unfold map_to_vjoy_axis
  have : min VJOY_MAX_RANGE (pytrunc ((VJOY_CENTER : ℚ) + v * ((VJOY_CENTER : ℚ) - 1))) ≤ 32767 :=
    le_trans (min_le_right _ _) htr
  simp only [VJOY_MAX_RANGE]
  omega

/-- C4 counterexample.  The claim states the mapping computes
round(C + v(C-1)) and that the full integer range [1, 32768] is
addressable from inputs in [-1, 1].  At v = 1/2 the argument is
24575.5: Python int() truncates it to 24575 while round() gives 24576,
so the function does not round.  And at the extreme input v = 1 the
result is 32767, not 32768: the top of the range is not produced. -/
theorem C4_counterexample :
    map_to_vjoy_axis (1 / 2) = 24575 ∧
    spec_round_map (1 / 2) = 24576 ∧
    map_to_vjoy_axis (1 / 2) ≠ spec_round_map (1 / 2) ∧
    map_to_vjoy_axis 1 = 32767 ∧ (32767 : ℤ) ≠ VJOY_MAX_RANGE := by
  norm_num [map_to_vjoy_axis, spec_round_map, pytrunc, pyround, VJOY_CENTER, VJOY_MAX_RANGE]

/-- C4 (amended).  The device mapping computes C + v(C-1) truncated
toward zero (Python int(), not round()), clamped into [1, R] with
R = 32768 and C = 16384.  For every v in [-1, 1] the mapped value lies
in [1, R-1] (a subrange of [1, R]; R itself is never produced there),
v = 0 maps exactly to the center C, and every integer of [1, R-1] is
addressable from an input in [-1, 1]. -/
theorem C4_device_mapping (v : ℚ) (_h1 : -1 ≤ v) (h2 : v ≤ 1) :
    (1 ≤ map_to_vjoy_axis v ∧ map_to_vjoy_axis v ≤ VJOY_MAX_RANGE - 1) ∧
    map_to_vjoy_axis 0 = VJOY_CENTER ∧
    ∀ n : ℤ, 1 ≤ n → n ≤ VJOY_MAX_RANGE - 1 →
      map_to_vjoy_axis (((n : ℚ) - (VJOY_CENTER : ℚ)) / ((VJOY_CENTER : ℚ) - 1)) = n := by
  refine ⟨⟨le_max_left _ _, map_to_vjoy_axis_le_of_le_one v h2⟩, ?_, ?_⟩
  · norm_num [map_to_vjoy_axis, pytrunc, VJOY_CENTER, VJOY_MAX_RANGE]
  · intro n hn1 hn2
    have hC : ((VJOY_CENTER : ℚ) - 1) ≠ 0 := by norm_num [VJOY_CENTER, VJOY_MAX_RANGE]
    have harg : (VJOY_CENTER : ℚ) +
        (((n : ℚ) - (VJOY_CENTER : ℚ)) / ((VJOY_CENTER : ℚ) - 1)) * ((VJOY_CENTER : ℚ) - 1)
        = (n : ℚ) := by
      field_simp
    rw [map_to_vjoy_axis, harg]
    have h0 : (0 : ℚ) ≤ (n : ℚ) := by
      have : (1 : ℚ) ≤ (n : ℚ) := by exact_mod_cast hn1
      linarith
    rw [pytrunc, if_pos h0, Int.floor_intCast]
    simp only [VJOY_MAX_RANGE] at hn2 ⊢
    omega

/-- C4 witness: the amended statement applied at v = 1/2. -/
theorem C4_device_mapping_witness :
    (1 ≤ map_to_vjoy_axis (1 / 2) ∧ map_to_vjoy_axis (1 / 2) ≤ VJOY_MAX_RANGE - 1) ∧
    map_to_vjoy_axis 0 = VJOY_CENTER ∧
    ∀ n : ℤ, 1 ≤ n → n ≤ VJOY_MAX_RANGE - 1 →
      map_to_vjoy_axis (((n : ℚ) - (VJOY_CENTER : ℚ)) / ((VJOY_CENTER : ℚ) - 1)) = n :=
  C4_device_mapping (1 / 2) (by norm_num) (by norm_num)

/-! ## C7: re-tracking captures a fresh offset and keeps output continuous -/

/-- A confirmed Closed_Fist on a released left hand re-tracks it,
stores the current hand-to-head y-offset as the new reference, and the
X-axis write of that very tick equals the write produced by a vertical
travel of zero. -/
theorem hand_phase_left_retrack (ops : AngleOps) (s2 : EngineState) (p : PoseSample)
    (t : Tick) (hc : s2.is_calibrated = true) (b : Baseline)
    (hb : s2.initial_state = some b)
    (hrel : s2.left_hand_status = HandState.RELEASED)
    (hlast : s2.left_last_seen_gesture = some Gesture.closed_fist)
    (hcur : t.gleft = some Gesture.closed_fist)
    (hstreak : 2 ≤ s2.left_gesture_streak) :
    (hand_phase ops s2 p t).1.left_hand_status = HandState.TRACKING ∧
    ((hand_phase ops s2 p t).1.initial_state.map Baseline.left_hand_head_y_offset) =
      some (p.lhand3d.y - p.head3d.y) ∧
    (hand_phase ops s2 p t).2[0]? =
      some (Write.axis AxisId.X (map_to_vjoy_axis (left_brake_norm 0))) := by
  have hdeb :
      hand_debounce
        ⟨s2.left_hand_status, s2.left_last_seen_gesture, s2.left_gesture_streak⟩
        t.gleft =
      (⟨HandState.TRACKING, some Gesture.closed_fist, 0⟩, true) := by
    rw [hrel, hlast, hcur]
    have h3 : GESTURE_STREAK_REQUIRED ≤ s2.left_gesture_streak + 1 := by
      simp only [GESTURE_STREAK_REQUIRED]
      omega
    simp [hand_debounce, h3]
  have htr :
      vertical_travel HandState.TRACKING p.lhand3d.y p.head3d.y
        (p.lhand3d.y - p.head3d.y) = 0 := by
    simp [vertical_travel]
  simp only [hand_phase, hc, if_true, hb, hdeb]
  cases hr :
      (hand_debounce
        ⟨s2.right_hand_status, s2.right_last_seen_gesture, s2.right_gesture_streak⟩
        t.gright).2 <;>
    simp [hr, htr]

/-- C7.  When a released left hand sees its (at least) third
consecutive Closed_Fist on a calibrated tick, it transitions back to
Tracking and a fresh hand-to-head vertical offset is captured from the
current sample as the new reference.  Therefore the vertical travel of
that hand at that instant is 0 and the X-axis value written on that
tick equals the value produced by a vertical travel of 0: the output
is continuous across the re-track.  The two hands are symmetric in the
source (lines 294-309 against 311-326); the left hand is proved. -/
theorem C7_retrack_fresh_offset_continuous (ops : AngleOps) (s : EngineState)
    (t : Tick) (p : PoseSample) (b : Baseline)
    (hp : t.pose = some p)
    (hst : s.calibration_status = CalibrationStatus.CALIBRATED)
    (hc : s.is_calibrated = true)
    (hb : s.initial_state = some b)
    (hrel : s.left_hand_status = HandState.RELEASED)
    (hlast : s.left_last_seen_gesture = some Gesture.closed_fist)
    (hcur : t.gleft = some Gesture.closed_fist)
    (hstreak : 2 ≤ s.left_gesture_streak) :
    (step ops s t).1.left_hand_status = HandState.TRACKING ∧
    ((step ops s t).1.initial_state.map Baseline.left_hand_head_y_offset) =
      some (p.lhand3d.y - p.head3d.y) ∧
    vertical_travel (step ops s t).1.left_hand_status p.lhand3d.y p.head3d.y
      (((step ops s t).1.initial_state.map Baseline.left_hand_head_y_offset).getD 0) = 0 ∧
    (step ops s t).2[0]? =
      some (Write.axis AxisId.X (map_to_vjoy_axis (left_brake_norm 0))) := by
  have hboth : both_open t = false := by
    simp [both_open, hcur]
  have hstep :
      step ops s t =
        hand_phase ops
          (calibration_step ops
            { s with pose_data_buffer := (p :: s.pose_data_buffer).take 5 } t) p t := by
    simp [step, hp]
  set s1 : EngineState :=
    { s with pose_data_buffer := (p :: s.pose_data_buffer).take 5 } with hs1
  have hcalstep : calibration_step ops s1 t = s1 := by
    simp [calibration_step, hst, hboth]
  rw [hstep, hcalstep]
  obtain ⟨g1, g2, g3⟩ :=
    hand_phase_left_retrack ops s1 p t hc b hb hrel hlast hcur hstreak
  refine ⟨g1, g2, ?_, g3⟩
  rw [g1, g2]
  simp [vertical_travel]

/-- A reachable calibrated state whose left hand has been released and
has already seen two consecutive Closed_Fist observations. -/
def st_c7 : EngineState :=
  { st_c with left_hand_status := HandState.RELEASED
              left_gesture_streak := 2 }

/-- A tick showing a third Closed_Fist to the left hand. -/
def tick_c7 : Tick := ⟨4, some p0, some Gesture.closed_fist, none⟩

/-- C7 witness: the re-track theorem applied to the concrete state and
tick above. -/
theorem C7_retrack_fresh_offset_continuous_witness :
    (step ops0 st_c7 tick_c7).1.left_hand_status = HandState.TRACKING ∧
    ((step ops0 st_c7 tick_c7).1.initial_state.map Baseline.left_hand_head_y_offset) =
      some (p0.lhand3d.y - p0.head3d.y) ∧
    vertical_travel (step ops0 st_c7 tick_c7).1.left_hand_status p0.lhand3d.y p0.head3d.y
      (((step ops0 st_c7 tick_c7).1.initial_state.map
        Baseline.left_hand_head_y_offset).getD 0) = 0 ∧
    (step ops0 st_c7 tick_c7).2[0]? =
      some (Write.axis AxisId.X (map_to_vjoy_axis (left_brake_norm 0))) :=
  C7_retrack_fresh_offset_continuous ops0 st_c7 tick_c7 p0 b0
    rfl rfl rfl rfl rfl rfl rfl (by norm_num [st_c7, st_c])

/-! ## C3: reaching Calibrated requires a half-second qualifying hold -/

/-- The calibration status after the first k ticks of a stream. -/
def stateAt (ops : AngleOps) (ticks : List Tick) (k : ℕ) : CalibrationStatus :=
  (run ops initial_engine_state (ticks.take k)).calibration_status

/-- Tick m of the stream exists and carries a pose sample. -/
def pose_present_at (ticks : List Tick) (m : ℕ) : Prop :=
  ∃ t, ticks[m]? = some t ∧ t.pose.isSome = true

/-- Tick m of the stream exists and shows both open palms. -/
def both_open_at (ticks : List Tick) (m : ℕ) : Prop :=
  ∃ t, ticks[m]? = some t ∧ both_open t = true

/-- The wall-clock time of tick m (0 when out of range). -/
def time_at (ticks : List Tick) (m : ℕ) : ℚ := ((ticks[m]?).map Tick.time).getD 0

/-- An arming window open since tick i: tick i carried a pose sample
with both palms open, every later pose-present tick so far also showed
both palms open, and the engine has sat in ARMING ever since
processing tick i. -/
def ArmingWindow (ops : AngleOps) (ticks : List Tick) (i : ℕ) : Prop :=
  i < ticks.length ∧ pose_present_at ticks i ∧ both_open_at ticks i ∧
  (∀ m, i < m → m < ticks.length → pose_present_at ticks m → both_open_at ticks m) ∧
  (∀ m, i < m → m ≤ ticks.length → stateAt ops ticks m = CalibrationStatus.ARMING)

/-- The stream contains a completed qualifying hold: the engine
entered ARMING on a pose-present both-open tick i, stayed in ARMING
through tick j with every pose-present tick of the window showing both
open palms, and the wall-clock span from tick i to tick j is at least
half a second. -/
def QualifyingHold (ops : AngleOps) (ticks : List Tick) : Prop :=
  ∃ i j, i ≤ j ∧ j < ticks.length ∧
    pose_present_at ticks i ∧ both_open_at ticks i ∧
    pose_present_at ticks j ∧ both_open_at ticks j ∧
    1 / 2 ≤ time_at ticks j - time_at ticks i ∧
    (∀ m, i ≤ m → m ≤ j → pose_present_at ticks m → both_open_at ticks m) ∧
    (∀ m, i < m → m ≤ j → stateAt ops ticks m = CalibrationStatus.ARMING)

theorem stateAt_append (ops : AngleOps) (ticks : List Tick) (t : Tick) (m : ℕ)
    (hm : m ≤ ticks.length) : stateAt ops (ticks ++ [t]) m = stateAt ops ticks m := by
  unfold stateAt
  rw [List.take_append_of_le_length hm]

theorem stateAt_concat_succ (ops : AngleOps) (ticks : List Tick) (t : Tick) :
    stateAt ops (ticks ++ [t]) (ticks.length + 1) =
      (step ops (run ops initial_engine_state ticks) t).1.calibration_status := by
  unfold stateAt
  rw [List.take_of_length_le (by simp), run_append_one]

theorem pose_present_at_append (ticks : List Tick) (t : Tick) (m : ℕ)
    (hm : m < ticks.length) :
    pose_present_at (ticks ++ [t]) m ↔ pose_present_at ticks m := by
  unfold pose_present_at
  rw [List.getElem?_append_left hm]

theorem both_open_at_append (ticks : List Tick) (t : Tick) (m : ℕ)
    (hm : m < ticks.length) :
    both_open_at (ticks ++ [t]) m ↔ both_open_at ticks m := by
  unfold both_open_at
  rw [List.getElem?_append_left hm]

theorem time_at_append (ticks : List Tick) (t : Tick) (m : ℕ) (hm : m < ticks.length) :
    time_at (ticks ++ [t]) m = time_at ticks m := by
  unfold time_at
  rw [List.getElem?_append_left hm]

theorem pose_present_at_concat (ticks : List Tick) (t : Tick)
    (hpose : t.pose.isSome = true) : pose_present_at (ticks ++ [t]) ticks.length :=
  ⟨t, List.getElem?_concat_length ticks t, hpose⟩

theorem both_open_at_concat (ticks : List Tick) (t : Tick)
    (hopen : both_open t = true) : both_open_at (ticks ++ [t]) ticks.length :=
  ⟨t, List.getElem?_concat_length ticks t, hopen⟩

theorem time_at_concat (ticks : List Tick) (t : Tick) :
    time_at (ticks ++ [t]) ticks.length = t.time := by
  unfold time_at
  rw [List.getElem?_concat_length]
  rfl

/-- A qualifying hold survives appending one more tick. -/
theorem QualifyingHold_append (ops : AngleOps) (ticks : List Tick) (t : Tick)
    (h : QualifyingHold ops ticks) : QualifyingHold ops (ticks ++ [t]) := by
  obtain ⟨i, j, hij, hj, hpi, hbi, hpj, hbj, htime, hgest, hst⟩ := h
  have hi : i < ticks.length := lt_of_le_of_lt hij hj
  refine ⟨i, j, hij, by simp; omega, (pose_present_at_append _ _ _ hi).mpr hpi,
    (both_open_at_append _ _ _ hi).mpr hbi, (pose_present_at_append _ _ _ hj).mpr hpj,
    (both_open_at_append _ _ _ hj).mpr hbj, ?_, ?_, ?_⟩
  · rw [time_at_append _ _ _ hi, time_at_append _ _ _ hj]
    exact htime
  · intro m h1 h2 hpp
    have hm : m < ticks.length := lt_of_le_of_lt h2 hj
    exact (both_open_at_append _ _ _ hm).mpr
      (hgest m h1 h2 ((pose_present_at_append _ _ _ hm).mp hpp))
  · intro m h1 h2
    have hm : m ≤ ticks.length := le_of_lt (lt_of_le_of_lt h2 hj)
    rw [stateAt_append _ _ _ _ hm]
    exact hst m h1 h2

/-- An open arming window survives a tick that keeps the machine in
ARMING, provided the new tick, if it carries a pose sample at all,
shows both open palms. -/
theorem ArmingWindow_extend (ops : AngleOps) (ticks : List Tick) (t : Tick) (i : ℕ)
    (hwin : ArmingWindow ops ticks i)
    (hstat : stateAt ops (ticks ++ [t]) (ticks.length + 1) = CalibrationStatus.ARMING)
    (hopen : t.pose.isSome = true → both_open t = true) :
    ArmingWindow ops (ticks ++ [t]) i := by
  obtain ⟨hi, hpi, hbi, hgest, hst⟩ := hwin
  refine ⟨by simp; omega, (pose_present_at_append _ _ _ hi).mpr hpi,
    (both_open_at_append _ _ _ hi).mpr hbi, ?_, ?_⟩
  · intro m h1 h2 hpp
    simp only [List.length_append, List.length_cons, List.length_nil] at h2
    rcases Nat.lt_succ_iff_lt_or_eq.mp h2 with hm | hm
    · exact (both_open_at_append _ _ _ hm).mpr
        (hgest m h1 hm ((pose_present_at_append _ _ _ hm).mp hpp))
    · subst hm
      obtain ⟨t2, ht2, hpose2⟩ := hpp
      rw [List.getElem?_concat_length] at ht2
      cases ht2
      exact ⟨t, List.getElem?_concat_length ticks t, hopen hpose2⟩
  · intro m h1 h2
    simp only [List.length_append, List.length_cons, List.length_nil] at h2
    by_cases hm : m ≤ ticks.length
    · rw [stateAt_append _ _ _ _ hm]
      exact hst m h1 hm
    · have hm2 : m = ticks.length + 1 := by omega
      subst hm2
      exact hstat

/-- On a pose tick, the calibration-related fields of the step result
are those produced by the calibration machine on the buffered state. -/
theorem step_cal_fields (ops : AngleOps) (s : EngineState) (t : Tick)
    (sample : PoseSample) (hp : t.pose = some sample) :
    (step ops s t).1.calibration_status =
      (calibration_step ops
        { s with pose_data_buffer := (sample :: s.pose_data_buffer).take 5 } t).calibration_status ∧
    (step ops s t).1.is_calibrated =
      (calibration_step ops
        { s with pose_data_buffer := (sample :: s.pose_data_buffer).take 5 } t).is_calibrated ∧
    (step ops s t).1.arming_start_time =
      (calibration_step ops
        { s with pose_data_buffer := (sample :: s.pose_data_buffer).take 5 } t).arming_start_time := by
  have hh := hand_phase_preserves ops
    (calibration_step ops
      { s with pose_data_buffer := (sample :: s.pose_data_buffer).take 5 } t) sample t
  have hstep : (step ops s t).1 =
      (hand_phase ops
        (calibration_step ops
          { s with pose_data_buffer := (sample :: s.pose_data_buffer).take 5 } t)
        sample t).1 := by
    simp [step, hp]
  rw [hstep]
  exact ⟨hh.1, hh.2.1, hh.2.2.1⟩

theorem step_not_cal_open (ops : AngleOps) (s : EngineState) (t : Tick)
    (sample : PoseSample) (hp : t.pose = some sample)
    (hst : s.calibration_status = CalibrationStatus.NOT_CALIBRATED)
    (hbo : both_open t = true) :
    (step ops s t).1.calibration_status = CalibrationStatus.ARMING ∧
    (step ops s t).1.is_calibrated = s.is_calibrated ∧
    (step ops s t).1.arming_start_time = some t.time := by
  obtain ⟨f1, f2, f3⟩ := step_cal_fields ops s t sample hp
  rw [f1, f2, f3]
  simp [calibration_step, hst, hbo]

theorem step_not_cal_stay (ops : AngleOps) (s : EngineState) (t : Tick)
    (sample : PoseSample) (hp : t.pose = some sample)
    (hst : s.calibration_status = CalibrationStatus.NOT_CALIBRATED)
    (hbo : both_open t = false) :
    (step ops s t).1.calibration_status = CalibrationStatus.NOT_CALIBRATED ∧
    (step ops s t).1.is_calibrated = s.is_calibrated ∧
    (step ops s t).1.arming_start_time = s.arming_start_time := by
  obtain ⟨f1, f2, f3⟩ := step_cal_fields ops s t sample hp
  rw [f1, f2, f3]
  simp [calibration_step, hst, hbo]

theorem step_arming_break (ops : AngleOps) (s : EngineState) (t : Tick)
    (sample : PoseSample) (hp : t.pose = some sample)
    (hst : s.calibration_status = CalibrationStatus.ARMING)
    (hbo : both_open t = false) :
    (step ops s t).1.calibration_status =
      (if s.is_calibrated then CalibrationStatus.CALIBRATED
       else CalibrationStatus.NOT_CALIBRATED) ∧
    (step ops s t).1.is_calibrated = s.is_calibrated ∧
    (step ops s t).1.arming_start_time = none := by
  obtain ⟨f1, f2, f3⟩ := step_cal_fields ops s t sample hp
  rw [f1, f2, f3]
  simp [calibration_step, hst, hbo]

theorem step_arming_ready (ops : AngleOps) (s : EngineState) (t : Tick)
    (sample : PoseSample) (hp : t.pose = some sample)
    (hst : s.calibration_status = CalibrationStatus.ARMING)
    (hbo : both_open t = true)
    (hth : 1 / 2 ≤ t.time - s.arming_start_time.getD 0) :
    (step ops s t).1.calibration_status = CalibrationStatus.READY_TO_SET ∧
    (step ops s t).1.is_calibrated = s.is_calibrated ∧
    (step ops s t).1.arming_start_time = s.arming_start_time := by
  obtain ⟨f1, f2, f3⟩ := step_cal_fields ops s t sample hp
  rw [f1, f2, f3]
  have hth2 : (2 : ℚ)⁻¹ ≤ t.time - s.arming_start_time.getD 0 := by rwa [← one_div]
  simp [calibration_step, hst, hbo, hth2]

theorem step_arming_stay (ops : AngleOps) (s : EngineState) (t : Tick)
    (sample : PoseSample) (hp : t.pose = some sample)
    (hst : s.calibration_status = CalibrationStatus.ARMING)
    (hbo : both_open t = true)
    (hth : ¬ 1 / 2 ≤ t.time - s.arming_start_time.getD 0) :
    (step ops s t).1.calibration_status = CalibrationStatus.ARMING ∧
    (step ops s t).1.is_calibrated = s.is_calibrated ∧
    (step ops s t).1.arming_start_time = s.arming_start_time := by
  obtain ⟨f1, f2, f3⟩ := step_cal_fields ops s t sample hp
  rw [f1, f2, f3]
  have hth2 : ¬ (2 : ℚ)⁻¹ ≤ t.time - s.arming_start_time.getD 0 := by rwa [← one_div]
  simp [calibration_step, hst, hbo, hth2]

theorem step_ready_fist (ops : AngleOps) (s : EngineState) (t : Tick)
    (sample : PoseSample) (hp : t.pose = some sample)
    (hst : s.calibration_status = CalibrationStatus.READY_TO_SET)
    (hbf : both_fist t = true) :
    (step ops s t).1.calibration_status = CalibrationStatus.CALIBRATED ∧
    (step ops s t).1.is_calibrated = true ∧
    (step ops s t).1.arming_start_time = s.arming_start_time := by
  obtain ⟨f1, f2, f3⟩ := step_cal_fields ops s t sample hp
  rw [f1, f2, f3]
  obtain ⟨b, hb⟩ := Option.isSome_iff_exists.mp
    (average_initial_state_isSome ops ((sample :: s.pose_data_buffer).take 5)
      (by simp [List.take_succ_cons]))
  simp only [List.take_succ_cons] at hb
  simp [calibration_step, hst, hbf, hb]

theorem step_ready_stay (ops : AngleOps) (s : EngineState) (t : Tick)
    (sample : PoseSample) (hp : t.pose = some sample)
    (hst : s.calibration_status = CalibrationStatus.READY_TO_SET)
    (hbf : both_fist t = false) :
    (step ops s t).1.calibration_status = CalibrationStatus.READY_TO_SET ∧
    (step ops s t).1.is_calibrated = s.is_calibrated ∧
    (step ops s t).1.arming_start_time = s.arming_start_time := by
  obtain ⟨f1, f2, f3⟩ := step_cal_fields ops s t sample hp
  rw [f1, f2, f3]
  simp [calibration_step, hst, hbf]

theorem step_cal_open (ops : AngleOps) (s : EngineState) (t : Tick)
    (sample : PoseSample) (hp : t.pose = some sample)
    (hst : s.calibration_status = CalibrationStatus.CALIBRATED)
    (hbo : both_open t = true) :
    (step ops s t).1.calibration_status = CalibrationStatus.ARMING ∧
    (step ops s t).1.is_calibrated = s.is_calibrated ∧
    (step ops s t).1.arming_start_time = some t.time := by
  obtain ⟨f1, f2, f3⟩ := step_cal_fields ops s t sample hp
  rw [f1, f2, f3]
  simp [calibration_step, hst, hbo]

theorem step_cal_stay (ops : AngleOps) (s : EngineState) (t : Tick)
    (sample : PoseSample) (hp : t.pose = some sample)
    (hst : s.calibration_status = CalibrationStatus.CALIBRATED)
    (hbo : both_open t = false) :
    (step ops s t).1.calibration_status = CalibrationStatus.CALIBRATED ∧
    (step ops s t).1.is_calibrated = s.is_calibrated ∧
    (step ops s t).1.arming_start_time = s.arming_start_time := by
  obtain ⟨f1, f2, f3⟩ := step_cal_fields ops s t sample hp
  rw [f1, f2, f3]
  simp [calibration_step, hst, hbo]

/-- The inductive invariant behind C3: a set is_calibrated flag or a
READY_TO_SET status certify a completed qualifying hold somewhere in
the past, and an ARMING status certifies an open window whose start
time is the stored arming start time. -/
def C3Inv (ops : AngleOps) (ticks : List Tick) : Prop :=
  ((run ops initial_engine_state ticks).is_calibrated = true → QualifyingHold ops ticks) ∧
  ((run ops initial_engine_state ticks).calibration_status =
      CalibrationStatus.READY_TO_SET → QualifyingHold ops ticks) ∧
  ((run ops initial_engine_state ticks).calibration_status = CalibrationStatus.ARMING →
    ∃ i, ArmingWindow ops ticks i ∧
      (run ops initial_engine_state ticks).arming_start_time = some (time_at ticks i))

theorem c3_inv (ops : AngleOps) (ticks : List Tick) : C3Inv ops ticks := by
  induction ticks using List.reverseRecOn with
  | nil =>
      refine ⟨fun h => ?_, fun h => ?_, fun h => ?_⟩ <;>
        simp [run, initial_engine_state] at h
  | append_singleton ts t ih =>
      obtain ⟨ih1, ih2, ih3⟩ := ih
      unfold C3Inv
      rw [run_append_one]
      cases hp : t.pose with
      | none =>
          have hid : (step ops (run ops initial_engine_state ts) t).1 =
              run ops initial_engine_state ts := by
            simp [step, hp]
          rw [hid]
          refine ⟨fun hc => QualifyingHold_append ops ts t (ih1 hc),
                  fun hc => QualifyingHold_append ops ts t (ih2 hc),
                  fun hc => ?_⟩
          obtain ⟨i, hwin, harm⟩ := ih3 hc
          refine ⟨i, ArmingWindow_extend ops ts t i hwin ?_ (fun hpose => ?_), ?_⟩
          · rw [stateAt_concat_succ, hid]
            exact hc
          · rw [hp] at hpose
            exact absurd hpose (by simp)
          · rw [time_at_append _ _ _ hwin.1]
            exact harm
      | some sample =>
          cases hst : (run ops initial_engine_state ts).calibration_status with
          | NOT_CALIBRATED =>
              by_cases hbo : both_open t = true
              · obtain ⟨e1, e2, e3⟩ := step_not_cal_open ops _ t sample hp hst hbo
                refine ⟨fun hc => ?_, fun hc => ?_, fun hc => ?_⟩
                · rw [e2] at hc
                  exact QualifyingHold_append ops ts t (ih1 hc)
                · rw [e1] at hc
                  simp at hc
                · refine ⟨ts.length,
                    ⟨by simp only [List.length_append, List.length_cons,
                        List.length_nil]; omega,
                     pose_present_at_concat ts t (by rw [hp]; rfl),
                     both_open_at_concat ts t hbo, ?_, ?_⟩, ?_⟩
                  · intro m h1 h2 _
                    exfalso
                    simp only [List.length_append, List.length_cons,
                      List.length_nil] at h2
                    omega
                  · intro m h1 h2
                    have hm : m = ts.length + 1 := by
                      simp only [List.length_append, List.length_cons,
                        List.length_nil] at h2
                      omega
                    subst hm
                    rw [stateAt_concat_succ]
                    exact e1
                  · rw [e3, time_at_concat]
              · have hbo2 : both_open t = false := by simpa using hbo
                obtain ⟨e1, e2, e3⟩ := step_not_cal_stay ops _ t sample hp hst hbo2
                refine ⟨fun hc => ?_, fun hc => ?_, fun hc => ?_⟩
                · rw [e2] at hc
                  exact QualifyingHold_append ops ts t (ih1 hc)
                · rw [e1] at hc
                  simp at hc
                · rw [e1] at hc
                  simp at hc
          | ARMING =>
              obtain ⟨i, hwin, harm⟩ := ih3 hst
              by_cases hbo : both_open t = true
              · by_cases hth : 1 / 2 ≤
                    t.time - (run ops initial_engine_state ts).arming_start_time.getD 0
                · obtain ⟨e1, e2, e3⟩ := step_arming_ready ops _ t sample hp hst hbo hth
                  have hQH : QualifyingHold ops (ts ++ [t]) := by
                    refine ⟨i, ts.length, le_of_lt hwin.1,
                      by simp only [List.length_append, List.length_cons,
                        List.length_nil]; omega,
                      (pose_present_at_append _ _ _ hwin.1).mpr hwin.2.1,
                      (both_open_at_append _ _ _ hwin.1).mpr hwin.2.2.1,
                      pose_present_at_concat ts t (by rw [hp]; rfl),
                      both_open_at_concat ts t hbo, ?_, ?_, ?_⟩
                    · rw [time_at_concat, time_at_append _ _ _ hwin.1]
                      rw [harm] at hth
                      simpa using hth
                    · intro m h1 h2 hpp
                      by_cases hm : m < ts.length
                      · rcases eq_or_lt_of_le h1 with him | him
                        · subst him
                          exact (both_open_at_append _ _ _ hm).mpr hwin.2.2.1
                        · exact (both_open_at_append _ _ _ hm).mpr
                            (hwin.2.2.2.1 m him hm
                              ((pose_present_at_append _ _ _ hm).mp hpp))
                      · have hm2 : m = ts.length := by omega
                        subst hm2
                        exact both_open_at_concat ts t hbo
                    · intro m h1 h2
                      rw [stateAt_append _ _ _ _ h2]
                      exact hwin.2.2.2.2 m h1 h2
                  refine ⟨fun hc => ?_, fun _ => hQH, fun hc => ?_⟩
                  · rw [e2] at hc
                    exact QualifyingHold_append ops ts t (ih1 hc)
                  · rw [e1] at hc
                    simp at hc
                · obtain ⟨e1, e2, e3⟩ := step_arming_stay ops _ t sample hp hst hbo hth
                  refine ⟨fun hc => ?_, fun hc => ?_, fun hc => ?_⟩
                  · rw [e2] at hc
                    exact QualifyingHold_append ops ts t (ih1 hc)
                  · rw [e1] at hc
                    simp at hc
                  · refine ⟨i, ArmingWindow_extend ops ts t i hwin ?_ (fun _ => hbo), ?_⟩
                    · rw [stateAt_concat_succ]
                      exact e1
                    · rw [e3, time_at_append _ _ _ hwin.1]
                      exact harm
              · have hbo2 : both_open t = false := by simpa using hbo
                obtain ⟨e1, e2, e3⟩ := step_arming_break ops _ t sample hp hst hbo2
                refine ⟨fun hc => ?_, fun hc => ?_, fun hc => ?_⟩
                · rw [e2] at hc
                  exact QualifyingHold_append ops ts t (ih1 hc)
                · rw [e1] at hc
                  split at hc <;> simp at hc
                · rw [e1] at hc
                  split at hc <;> simp at hc
          | READY_TO_SET =>
              by_cases hbf : both_fist t = true
              · obtain ⟨e1, e2, e3⟩ := step_ready_fist ops _ t sample hp hst hbf
                refine ⟨fun _ => QualifyingHold_append ops ts t (ih2 hst),
                        fun hc => ?_, fun hc => ?_⟩
                · rw [e1] at hc
                  simp at hc
                · rw [e1] at hc
                  simp at hc
              · have hbf2 : both_fist t = false := by simpa using hbf
                obtain ⟨e1, e2, e3⟩ := step_ready_stay ops _ t sample hp hst hbf2
                refine ⟨fun hc => ?_,
                        fun _ => QualifyingHold_append ops ts t (ih2 hst),
                        fun hc => ?_⟩
                · rw [e2] at hc
                  exact QualifyingHold_append ops ts t (ih1 hc)
                · rw [e1] at hc
                  simp at hc
          | CALIBRATED =>
              by_cases hbo : both_open t = true
              · obtain ⟨e1, e2, e3⟩ := step_cal_open ops _ t sample hp hst hbo
                refine ⟨fun hc => ?_, fun hc => ?_, fun hc => ?_⟩
                · rw [e2] at hc
                  exact QualifyingHold_append ops ts t (ih1 hc)
                · rw [e1] at hc
                  simp at hc
                · refine ⟨ts.length,
                    ⟨by simp only [List.length_append, List.length_cons,
                        List.length_nil]; omega,
                     pose_present_at_concat ts t (by rw [hp]; rfl),
                     both_open_at_concat ts t hbo, ?_, ?_⟩, ?_⟩
                  · intro m h1 h2 _
                    exfalso
                    simp only [List.length_append, List.length_cons,
                      List.length_nil] at h2
                    omega
                  · intro m h1 h2
                    have hm : m = ts.length + 1 := by
                      simp only [List.length_append, List.length_cons,
                        List.length_nil] at h2
                      omega
                    subst hm
                    rw [stateAt_concat_succ]
                    exact e1
                  · rw [e3, time_at_concat]
              · have hbo2 : both_open t = false := by simpa using hbo
                obtain ⟨e1, e2, e3⟩ := step_cal_stay ops _ t sample hp hst hbo2
                refine ⟨fun hc => ?_, fun hc => ?_, fun hc => ?_⟩
                · rw [e2] at hc
                  exact QualifyingHold_append ops ts t (ih1 hc)
                · rw [e1] at hc
                  simp at hc
                · rw [e1] at hc
                  simp at hc

/-- C3.  The engine never reaches the Calibrated state without first
having remained continuously in Arming, with both hands showing
Open_Palm on every tick the state machine processed (every
pose-present tick), for at least half a second of wall-clock time: any
run from the fresh state that ends Calibrated contains a qualifying
hold.  And whenever the qualifying gesture breaks while Arming (here
stated for a break before the half second has elapsed, as the claim
words it, though the source reverts on any break), the state reverts
to Calibrated if previously calibrated and to NotCalibrated otherwise,
and no baseline is installed or removed by that tick. -/
theorem C3_calibrated_requires_half_second_hold (ops : AngleOps) (ticks : List Tick)
    (hcal : (run ops initial_engine_state ticks).calibration_status =
      CalibrationStatus.CALIBRATED) :
    QualifyingHold ops ticks ∧
    (∀ (s : EngineState) (t : Tick) (p : PoseSample),
      s.calibration_status = CalibrationStatus.ARMING → t.pose = some p →
      both_open t = false → t.time - s.arming_start_time.getD 0 < 1 / 2 →
      (step ops s t).1.calibration_status =
        (if s.is_calibrated then CalibrationStatus.CALIBRATED
         else CalibrationStatus.NOT_CALIBRATED) ∧
      (step ops s t).1.initial_state.isSome = s.initial_state.isSome) := by
  constructor
  · exact (c3_inv ops ticks).1 ((run_inv ops ticks).2.1 hcal)
  · intro s t p hst hp hbo _hth
    refine ⟨(step_arming_break ops s t p hp hst hbo).1, ?_⟩
    have hstep : (step ops s t).1 =
        (hand_phase ops
          (calibration_step ops
            { s with pose_data_buffer := (p :: s.pose_data_buffer).take 5 } t) p t).1 := by
      simp [step, hp]
    have hcs : calibration_step ops
        { s with pose_data_buffer := (p :: s.pose_data_buffer).take 5 } t =
        { s with pose_data_buffer := (p :: s.pose_data_buffer).take 5,
                 calibration_status :=
                   if s.is_calibrated then CalibrationStatus.CALIBRATED
                   else CalibrationStatus.NOT_CALIBRATED,
                 arming_start_time := none } := by
      simp [calibration_step, hst, hbo]
    rw [hstep,
      (hand_phase_preserves ops
        (calibration_step ops
          { s with pose_data_buffer := (p :: s.pose_data_buffer).take 5 } t)
        p t).2.2.2.1,
      hcs]

/-- C3 witness: the concrete calibrating trace enters Calibrated, and
the theorem exhibits its qualifying hold and the revert behaviour. -/
theorem C3_calibrated_requires_half_second_hold_witness :
    QualifyingHold ops0 cal_ticks ∧
    (∀ (s : EngineState) (t : Tick) (p : PoseSample),
      s.calibration_status = CalibrationStatus.ARMING → t.pose = some p →
      both_open t = false → t.time - s.arming_start_time.getD 0 < 1 / 2 →
      (step ops0 s t).1.calibration_status =
        (if s.is_calibrated then CalibrationStatus.CALIBRATED
         else CalibrationStatus.NOT_CALIBRATED) ∧
      (step ops0 s t).1.initial_state.isSome = s.initial_state.isSome) :=
  C3_calibrated_requires_half_second_hold ops0 cal_ticks (by rw [run_cal_ticks]; rfl)

/-! ## C10: the output sequence is a function of the input stream -/

/-- Shift of the ambient wall clock: the same tick observed Δ seconds
later. -/
def shiftTick (d : ℚ) (t : Tick) : Tick := { t with time := t.time + d }

/-- A whole stream replayed Δ seconds later: same pose and gesture
content, same relative cadence. -/
def shiftTicks (d : ℚ) (ts : List Tick) : List Tick := ts.map (shiftTick d)

/-- The only clock-derived datum inside the engine state is the arming
start time; shifting the clock shifts it along. -/
def shiftState (d : ℚ) (s : EngineState) : EngineState :=
  { s with arming_start_time := s.arming_start_time.map (fun a => a + d) }

theorem both_open_shift (d : ℚ) (t : Tick) : both_open (shiftTick d t) = both_open t := rfl

theorem both_fist_shift (d : ℚ) (t : Tick) : both_fist (shiftTick d t) = both_fist t := rfl

theorem time_shift (d : ℚ) (t : Tick) : (shiftTick d t).time = t.time + d := rfl

/-- The calibration machine commutes with a clock shift: it only ever
uses the difference between the tick time and the arming start time. -/
theorem calibration_step_shift (ops : AngleOps) (d : ℚ) (s : EngineState) (t : Tick)
    (h : s.calibration_status = CalibrationStatus.ARMING →
      s.arming_start_time.isSome = true) :
    calibration_step ops (shiftState d s) (shiftTick d t) =
      shiftState d (calibration_step ops s t) := by
  unfold calibration_step
  simp only [shiftState]
  cases hst : s.calibration_status with
  | NOT_CALIBRATED =>
      by_cases hbo : both_open t = true <;>
        simp [both_open_shift, hbo, time_shift, hst]
  | ARMING =>
      obtain ⟨a, ha⟩ := Option.isSome_iff_exists.mp (h hst)
      by_cases hbo : both_open t = true
      · have harg : (shiftTick d t).time -
            ((s.arming_start_time.map fun a => a + d).getD 0)
            = t.time - (s.arming_start_time.getD 0) := by
          rw [time_shift, ha]
          show t.time + d - (a + d) = t.time - a
          ring
        by_cases hth : (2 : ℚ)⁻¹ ≤ t.time - (s.arming_start_time.getD 0) <;>
          simp [both_open_shift, hbo, harg, hth, hst]
      · simp [both_open_shift, hbo, hst]
  | READY_TO_SET =>
      by_cases hbf : both_fist t = true
      · cases havg : average_initial_state ops s.pose_data_buffer with
        | some st => simp [both_fist_shift, hbf, havg, hst]
        | none => simp [both_fist_shift, hbf, havg, hst]
      · simp [both_fist_shift, hbf, hst]
  | CALIBRATED =>
      by_cases hbo : both_open t = true <;>
        simp [both_open_shift, hbo, time_shift, hst]

/-- The hand phase never reads the clock, so it commutes with a clock
shift. -/
theorem hand_phase_shift (ops : AngleOps) (d : ℚ) (s2 : EngineState)
    (sample : PoseSample) (t : Tick) :
    hand_phase ops (shiftState d s2) sample (shiftTick d t) =
      (shiftState d (hand_phase ops s2 sample t).1, (hand_phase ops s2 sample t).2) := by
  unfold hand_phase
  simp only [shiftState, shiftTick]
  cases hic : s2.is_calibrated
  · simp [hic]
  · cases hb : s2.initial_state with
    | none => simp [hic, hb]
    | some base0 => simp [hic, hb]

/-- A whole tick commutes with a clock shift. -/
theorem step_shift (ops : AngleOps) (d : ℚ) (s : EngineState) (t : Tick)
    (h : s.calibration_status = CalibrationStatus.ARMING →
      s.arming_start_time.isSome = true) :
    step ops (shiftState d s) (shiftTick d t) =
      (shiftState d (step ops s t).1, (step ops s t).2) := by
  cases hp : t.pose with
  | none =>
      have hp2 : (shiftTick d t).pose = none := hp
      simp [step, hp, hp2, shiftState]
  | some sample =>
      have hp2 : (shiftTick d t).pose = some sample := hp
      have hbufeq :
          ({ shiftState d s with
              pose_data_buffer := (sample :: (shiftState d s).pose_data_buffer).take 5 } :
            EngineState) =
          shiftState d
            { s with pose_data_buffer := (sample :: s.pose_data_buffer).take 5 } := rfl
      have h' :
          ({ s with pose_data_buffer := (sample :: s.pose_data_buffer).take 5 } :
            EngineState).calibration_status = CalibrationStatus.ARMING →
          ({ s with pose_data_buffer := (sample :: s.pose_data_buffer).take 5 } :
            EngineState).arming_start_time.isSome = true := h
      simp only [step, hp, hp2]
      rw [hbufeq, calibration_step_shift ops d _ t h', hand_phase_shift]

theorem run_outputs_shift (ops : AngleOps) (d : ℚ) (ts : List Tick) :
    ∀ (s : EngineState), StateInv s →
      run_outputs ops (shiftState d s) (shiftTicks d ts) = run_outputs ops s ts := by
  induction ts with
  | nil => intro s _; rfl
  | cons t ts ih =>
      intro s hinv
      have hcomm := step_shift ops d s t hinv.2.2
      simp only [shiftTicks, List.map_cons, run_outputs]
      rw [hcomm]
      exact congrArg _ (ih (step ops s t).1 (step_inv ops s t hinv))

/-- C10.  The output sequence is a deterministic function of the input
stream alone: replaying an identical PoseSample and GestureLabel
stream (same content, same relative cadence, whatever the absolute
wall-clock offset of the replay) from a fresh NotCalibrated state
produces an identical ControlOutput sequence.  With offset 0 this is
literal determinism; a nonzero offset shows no absolute-clock datum
leaks into the outputs (the engine only uses clock differences). -/
theorem C10_output_function_of_stream (ops : AngleOps) (d : ℚ)
    (ts1 ts2 : List Tick) (h : ts2 = shiftTicks d ts1) :
    run_outputs ops initial_engine_state ts2 =
      run_outputs ops initial_engine_state ts1 := by
  subst h
  have h0 : shiftState d initial_engine_state = initial_engine_state := rfl
  rw [← h0]
  exact run_outputs_shift ops d ts1 initial_engine_state initial_state_inv

/-- C10 witness: the calibrating trace replayed one second later
produces the same outputs. -/
theorem C10_output_function_of_stream_witness :
    run_outputs ops0 initial_engine_state (shiftTicks 1 cal_ticks) =
      run_outputs ops0 initial_engine_state cal_ticks :=
  C10_output_function_of_stream ops0 1 cal_ticks (shiftTicks 1 cal_ticks) rfl

/-! ## C5: a baseline versus the calibration state -/

/-- C5 counterexample.  The claim states that a baseline exists if and
only if the calibration state is Calibrated.  Run the engine through a
full calibration and then show both open palms once more: the state
re-enters ARMING (not Calibrated) while the installed baseline remains
in place, so a baseline exists in a reachable state whose calibration
state is not Calibrated. -/
theorem C5_counterexample :
    (run ops0 initial_engine_state rearm_ticks).calibration_status =
      CalibrationStatus.ARMING ∧
    (run ops0 initial_engine_state rearm_ticks).calibration_status ≠
      CalibrationStatus.CALIBRATED ∧
    (run ops0 initial_engine_state rearm_ticks).initial_state.isSome = true := by
  rw [run_rearm_ticks]
  exact ⟨rfl, by decide, rfl⟩

/-- C5 (amended).  In every reachable state of the engine, a baseline
(initial_state) exists if and only if the is_calibrated flag is set,
that is, if and only if a calibration has completed at some point; a
CALIBRATED calibration state implies that a baseline exists, but the
converse fails because the existing baseline is kept while the machine
re-arms (ARMING/READY_TO_SET after a previous calibration). -/
theorem C5_baseline_iff_calibrated_flag (ops : AngleOps) (ticks : List Tick) :
    ((run ops initial_engine_state ticks).initial_state.isSome =
      (run ops initial_engine_state ticks).is_calibrated) ∧
    ((run ops initial_engine_state ticks).calibration_status =
        CalibrationStatus.CALIBRATED →
      (run ops initial_engine_state ticks).initial_state.isSome = true) := by
  obtain ⟨h1, h2, _⟩ := run_inv ops ticks
  exact ⟨h1, fun hc => by rw [h1]; exact h2 hc⟩

/-- C5 witness: the amended statement on the concrete calibrating
trace, whose final state is CALIBRATED and has a baseline. -/
theorem C5_baseline_iff_calibrated_flag_witness :
    ((run ops0 initial_engine_state cal_ticks).initial_state.isSome =
      (run ops0 initial_engine_state cal_ticks).is_calibrated) ∧
    (run ops0 initial_engine_state cal_ticks).initial_state.isSome = true :=
  ⟨(C5_baseline_iff_calibrated_flag ops0 cal_ticks).1,
   (C5_baseline_iff_calibrated_flag ops0 cal_ticks).2 (by rw [run_cal_ticks]; rfl)⟩

/-! ## C9: what a tick writes -/

/-- C9 counterexample.  The claim states that every control tick
writes all axes, and that a tick with no pose sample re-emits the last
computed output.  From the reachable calibrated state st_c, a tick
carrying no pose sample writes nothing at all (the empty write list,
not a re-emission of the previous four axis writes), leaving the state
unchanged. -/
theorem C9_counterexample :
    (step ops0 st_c ⟨4, none, none, none⟩).2 = [] ∧
    writes_all_axes (step ops0 st_c ⟨4, none, none, none⟩).2 = false ∧
    (step ops0 st_c ⟨4, none, none, none⟩).1 = st_c :=
  ⟨rfl, rfl, rfl⟩

/-- C9 (amended).  On a tick with no pose sample the engine performs
no state update and writes nothing to the sink (the sink simply
retains its previous values; there is no re-emission).  Writes happen
only on ticks that carry a pose sample and end with the is_calibrated
flag set, and such ticks write all four axes. -/
theorem C9_tick_writes (ops : AngleOps) (past : List Tick) (t : Tick) :
    (t.pose = none →
      step ops (run ops initial_engine_state past) t =
        (run ops initial_engine_state past, [])) ∧
    (t.pose.isSome = true →
      (step ops (run ops initial_engine_state past) t).1.is_calibrated = true →
      writes_all_axes (step ops (run ops initial_engine_state past) t).2 = true) ∧
    ((step ops (run ops initial_engine_state past) t).1.is_calibrated = false →
      (step ops (run ops initial_engine_state past) t).2 = []) := by
  set s : EngineState := run ops initial_engine_state past with hs
  have hinv : StateInv s := run_inv ops past
  cases hp : t.pose with
  | none =>
      refine ⟨fun _ => by simp [step, hp], ?_, ?_⟩
      · intro hpose
        exact absurd hpose (by simp)
      · intro _
        simp [step, hp]
  | some sample =>
      have hstep : step ops s t =
          hand_phase ops
            (calibration_step ops
              { s with pose_data_buffer := (sample :: s.pose_data_buffer).take 5 } t)
            sample t := by
        simp [step, hp]
      have hbuf :
          ({ s with pose_data_buffer := (sample :: s.pose_data_buffer).take 5} :
            EngineState).pose_data_buffer ≠ [] := by
        simp [List.take_succ_cons]
      have hinv2 := calibration_step_inv ops
        { s with pose_data_buffer := (sample :: s.pose_data_buffer).take 5 } t hbuf hinv
      obtain ⟨g1, g2, g3, g4, g5⟩ := hand_phase_preserves ops
        (calibration_step ops
          { s with pose_data_buffer := (sample :: s.pose_data_buffer).take 5 } t)
        sample t
      refine ⟨fun h => absurd h (by simp), ?_, ?_⟩
      · intro _ hcal
        rw [hstep] at hcal ⊢
        rw [g2] at hcal
        obtain ⟨b, hb⟩ := Option.isSome_iff_exists.mp (by rw [hinv2.1, hcal])
        exact hand_phase_writes_calibrated ops _ sample t hcal b hb
      · intro hcal
        rw [hstep] at hcal ⊢
        rw [g2] at hcal
        exact hand_phase_writes_uncalibrated ops _ sample t hcal

/-- C9 witness: on the reachable calibrated state after the
calibrating trace, a pose tick writes all four axes, and a tick
without a pose sample changes nothing and writes nothing. -/
theorem C9_tick_writes_witness :
    writes_all_axes
      (step ops0 (run ops0 initial_engine_state cal_ticks) tick_d).2 = true ∧
    step ops0 (run ops0 initial_engine_state cal_ticks) ⟨4, none, none, none⟩ =
      (run ops0 initial_engine_state cal_ticks, []) :=
  ⟨(C9_tick_writes ops0 cal_ticks tick_d).2.1 rfl
      (by rw [run_cal_ticks, step_tick_d]; rfl),
   (C9_tick_writes ops0 cal_ticks ⟨4, none, none, none⟩).1 rfl⟩

/-- C8 counterexample.  The claim states the final shutdown write sets
every button to false before the sink is released.  The shutdown
sequence of the source contains no button write at all, so it does not
set any button, let alone all of them. -/
theorem C8_counterexample :
    sets_every_button_false shutdown_writes = false ∧
    shutdown_writes.countP is_button_write = 0 := by
  decide

/-- C8 (amended).  At shutdown, the final writes to the output sink
set each of the four used axes (X, Y, Z, RX) exactly to the
neutral center value VJOY_CENTER, every one of those writes carries
the center value, and no button write is performed at all (buttons are
simply left untouched), before the sink is released. -/
theorem C8_shutdown_centers_axes_no_buttons :
    (shutdown_writes.all is_center_axis_write) = true ∧
    ([AxisId.X, AxisId.Y, AxisId.Z, AxisId.RX].all fun a =>
      shutdown_writes.any fun w => decide (w = Write.axis a VJOY_CENTER)) = true ∧
    shutdown_writes.length = 4 ∧
    (shutdown_writes.all fun w => !is_button_write w) = true := by
  decide

end CamController
